import Mathlib

/-!
Verification development for the Elegoo AI-assisted project-file generator.

The Python source is shallowly embedded in Lean:
* the build-plate transform solver of
  `ProfileGenerator._generate_3mf_model_xml` (profile_generator.py) over `ℚ`
  (its inputs and outputs are plain arithmetic over mesh bounds);
* the overhang analysis of `FeatureExtractor._detect_overhangs`
  (feature_extractor.py) over `ℝ` (the source computes `arccos` of normal
  dot products, so the angle function lives in `ℝ`);
* the control flow of `ProfileGenerator._generate_3mf_with_settings` and
  `ProfileGenerator.generate_profile` as explicit outcome-passing;
* the fallback analysis of `GeminiAgent._generate_fallback_analysis`
  (gemini_agent.py) and the settings merge of
  `ProfileGenerator._generate_elegoo_project_settings`.
-/

namespace Elegoo

/-! ## Build-plate transform solver

Embedding of the geometry part of
`ProfileGenerator._generate_3mf_model_xml` (profile_generator.py,
lines 613-695).  The mesh enters only through its axis-aligned bounds
`mesh.bounds`, embedded as the six coordinates below. -/

/-- Axis-aligned bounding box of a mesh, `mesh.bounds` in trimesh:
`bounds[0] = (minX, minY, minZ)`, `bounds[1] = (maxX, maxY, maxZ)`. -/
structure Bounds where
  minX : ℚ
  minY : ℚ
  minZ : ℚ
  maxX : ℚ
  maxY : ℚ
  maxZ : ℚ
deriving DecidableEq

/-- A well-formed bounding box has min ≤ max on every axis. -/
def Bounds.wf (b : Bounds) : Prop :=
  b.minX ≤ b.maxX ∧ b.minY ≤ b.maxY ∧ b.minZ ≤ b.maxZ

instance (b : Bounds) : Decidable b.wf := by
  unfold Bounds.wf; infer_instance

/-- Source: `width = bounds[1][0] - bounds[0][0]`. -/
def Bounds.width (b : Bounds) : ℚ := b.maxX - b.minX

/-- Source: `depth = bounds[1][1] - bounds[0][1]`. -/
def Bounds.depth (b : Bounds) : ℚ := b.maxY - b.minY

/-- Source: `height = bounds[1][2] - bounds[0][2]`. -/
def Bounds.height (b : Bounds) : ℚ := b.maxZ - b.minZ

/-- A point in space (a mesh vertex). -/
structure Vec3 where
  x : ℚ
  y : ℚ
  z : ℚ
deriving DecidableEq

/-- Vertex `v` lies inside bounding box `b`. -/
def Vec3.inBounds (v : Vec3) (b : Bounds) : Prop :=
  b.minX ≤ v.x ∧ v.x ≤ b.maxX ∧
  b.minY ≤ v.y ∧ v.y ≤ b.maxY ∧
  b.minZ ≤ v.z ∧ v.z ≤ b.maxZ

instance (v : Vec3) (b : Bounds) : Decidable (v.inBounds b) := by
  unfold Vec3.inBounds; infer_instance

/-- Source: `safe_build_size = build_plate_size - 10` (5mm margin per side). -/
def safeBuildSize (plate : ℚ) : ℚ := plate - 10

/-- Source: `max_dimension = max(width, depth)` over the X/Y extents. -/
def maxDimension (b : Bounds) : ℚ := max b.width b.depth

/-- The uniform scale of `_generate_3mf_model_xml`:
`scale = safe_build_size / max_dimension` when `max_dimension >
safe_build_size`, else `1.0`. -/
def scaleFactor (b : Bounds) (plate : ℚ) : ℚ :=
  if maxDimension b > safeBuildSize plate then safeBuildSize plate / maxDimension b
  else 1

/-- Source: `offset_x = build_plate_size / 2`. -/
def offsetX (plate : ℚ) : ℚ := plate / 2

/-- Source: `offset_y = build_plate_size / 2`. -/
def offsetY (plate : ℚ) : ℚ := plate / 2

/-- Source: `offset_z = (bounds[1][2] - bounds[0][2]) / 2 * scale` (half height). -/
def offsetZ (b : Bounds) (plate : ℚ) : ℚ :=
  b.height / 2 * scaleFactor b plate

/-- Vertex normalisation of `_generate_3mf_model_xml`: subtract the X/Y
bounding-box center and the minimum Z (`center_z = bounds[0][2]`). -/
def normalizeVertex (b : Bounds) (v : Vec3) : Vec3 :=
  { x := v.x - (b.minX + b.maxX) / 2
  , y := v.y - (b.minY + b.maxY) / 2
  , z := v.z - b.minZ }

/-- The transform matrix `"s 0 0  0 s 0  0 0 s  ox oy oz"` written into the
3MF build item: uniform scale followed by a translation. -/
def applyTransform (b : Bounds) (plate : ℚ) (p : Vec3) : Vec3 :=
  { x := scaleFactor b plate * p.x + offsetX plate
  , y := scaleFactor b plate * p.y + offsetY plate
  , z := scaleFactor b plate * p.z + offsetZ b plate }

/-- The full placement pipeline of `_generate_3mf_model_xml`: center the
vertex, then apply the solved transform. -/
def placeVertex (b : Bounds) (plate : ℚ) (v : Vec3) : Vec3 :=
  applyTransform b plate (normalizeVertex b v)

/-- Bounding box of the 10×10×10 mm cube scenario. -/
def cubeBounds : Bounds :=
  { minX := 0, minY := 0, minZ := 0, maxX := 10, maxY := 10, maxZ := 10 }

/-- Bounding box of the 300 mm X/Y extent scenario. -/
def wideBounds : Bounds :=
  { minX := 0, minY := 0, minZ := 0, maxX := 300, maxY := 300, maxZ := 50 }

/-! ## Overhang analysis

Embedding of `FeatureExtractor._detect_overhangs` (feature_extractor.py,
lines 130-171).  The function consumes only `mesh.face_normals` (unit
outward normals, one per face) and the face count, so a mesh is embedded
as its list of face normals.  The source computes
`angles_deg = degrees(arccos(clip(dot(face_normals, [0,0,-1]), -1, 1)))`,
which forces the angle function into `ℝ`; the definitions below are
therefore noncomputable and evaluated in proofs through `Real.arccos`
simp lemmas. -/

/-- A face normal, three real components. -/
structure Normal where
  nx : ℝ
  ny : ℝ
  nz : ℝ

/-- Source: `np.clip(x, -1.0, 1.0) = min(max(x, -1), 1)`. -/
noncomputable def clip1 (x : ℝ) : ℝ := min (max x (-1)) 1

/-- Per-face angle in degrees from the downward print axis:
`degrees(arccos(clip(dot(n, [0,0,-1]), -1, 1)))` where
`dot(n, [0,0,-1]) = -nz`. -/
noncomputable def angleDeg (n : Normal) : ℝ :=
  Real.arccos (clip1 (n.nx * 0 + n.ny * 0 + n.nz * (-1))) * (180 / Real.pi)

open Classical in
/-- Source: `np.sum(angles_deg > t)`, the number of faces whose angle from the
downward axis exceeds threshold `t`. -/
noncomputable def countAbove (ns : List Normal) (t : ℝ) : ℕ :=
  match ns with
  | [] => 0
  | n :: rest => (if angleDeg n > t then 1 else 0) + countAbove rest t

/-- Source: `(overhang_faces / total_faces * 100) if total_faces > 0 else 0`. -/
noncomputable def overhangPercentage (ns : List Normal) (t : ℝ) : ℝ :=
  if ns.length > 0 then (countAbove ns t : ℝ) / (ns.length : ℝ) * 100 else 0

open Classical in
/-- The result record of `_detect_overhangs`; Python booleans are embedded
as `Prop`. -/
structure OverhangReport where
  has_overhangs : Prop
  overhang_percentage : ℝ
  severe_overhang_percentage : ℝ
  extreme_overhang_percentage : ℝ
  overhang_face_count : ℕ
  needs_supports : Prop
  recommend_tree_support : Prop
  support_complexity : String

open Classical in
/-- Embeds `FeatureExtractor._detect_overhangs` with configurable threshold
`threshold` (constructor default 45): fixed severe/extreme thresholds 60
and 75, percentages over the face count, and the boolean policies computed
from the percentages. -/
noncomputable def detectOverhangs (ns : List Normal) (threshold : ℝ) : OverhangReport :=
  let overhangPct := overhangPercentage ns threshold
  let severePct := overhangPercentage ns 60
  let extremePct := overhangPercentage ns 75
  let needsTree :=
    severePct > 5 ∨ (overhangPct > 15 ∧ extremePct > 2) ∨ overhangPct > 20
  { has_overhangs := overhangPct > 5
  , overhang_percentage := overhangPct
  , severe_overhang_percentage := severePct
  , extreme_overhang_percentage := extremePct
  , overhang_face_count := countAbove ns threshold
  , needs_supports := overhangPct > 10
  , recommend_tree_support := needsTree
  , support_complexity :=
      if needsTree then "high" else if overhangPct > 10 then "medium" else "low" }

/-- Outward normal pointing straight down, `(0, 0, -1)`. -/
def downNormal : Normal := { nx := 0, ny := 0, nz := -1 }

/-- Outward normal pointing straight up, `(0, 0, 1)`. -/
def upNormal : Normal := { nx := 0, ny := 0, nz := 1 }

/-- A flat upward-facing square: two triangles, both normals straight up. -/
def upSquare : List Normal := [upNormal, upNormal]

/-! ## Package assembly control flow

Embedding of `ProfileGenerator._generate_3mf_with_settings`
(profile_generator.py, lines 209-475) as an explicit outcome-passing
state machine over the files it touches: the temporary working directory
`temp_dir` and the archive at `output_path`.  The body is a `try:` block;
each stage may raise, and `zipfile.ZipFile(output_path, 'w')` creates the
file at the target path before the entries are written.  The `finally:`
block removes the temporary directory and swallows its own errors. -/

/-- The stages of `_generate_3mf_with_settings` that can raise. -/
inductive Stage where
  | loadModel
  | xmlGen
  | metadataWrite
  | archiveWrite
deriving DecidableEq, Fintype

/-- Observable file-system state: whether the temporary working directory
exists, whether a file exists at the target output path, and whether that
file is a completely written archive. -/
structure FsState where
  tempDirExists : Bool
  outputFileExists : Bool
  outputComplete : Bool
deriving DecidableEq

/-- Outcome of the call: normal return or a propagated exception, each
with the file-system state left behind. -/
inductive Outcome where
  | ok (s : FsState)
  | raised (s : FsState)
deriving DecidableEq

/-- The `try:` body: `os.makedirs(temp_dir)`, then model load, XML
generation and metadata writing (which touch only the temporary
directory), then `zipfile.ZipFile(output_path, 'w')` which creates the
output file, then the entry writes which complete it.  `failAt` selects
the first stage that raises (`none` = full success). -/
def tryBody (failAt : Option Stage) : Outcome :=
  let s : FsState := { tempDirExists := true, outputFileExists := false, outputComplete := false }
  if failAt = some .loadModel then .raised s
  else if failAt = some .xmlGen then .raised s
  else if failAt = some .metadataWrite then .raised s
  else
    let s := { s with outputFileExists := true }
    if failAt = some .archiveWrite then .raised s
    else .ok { s with outputComplete := true }

/-- The `finally:` block: `shutil.rmtree(temp_dir)`, wrapped in its own
`try/except` that never re-raises. -/
def runFinally : Outcome → Outcome
  | .ok s => .ok { s with tempDirExists := false }
  | .raised s => .raised { s with tempDirExists := false }

/-- Embeds `_generate_3mf_with_settings` as the composition of body and
`finally:` cleanup. -/
def generate3mfWithSettings (failAt : Option Stage) : Outcome :=
  runFinally (tryBody failAt)

/-- Final file-system state of an outcome. -/
def Outcome.state : Outcome → FsState
  | .ok s => s
  | .raised s => s

/-- The call failed and left a partially written file at the target
output path. -/
def leavesPartialArchive : Outcome → Bool
  | .ok _ => false
  | .raised s => s.outputFileExists && !s.outputComplete

/-! ## `generate_profile` error isolation

Embedding of `ProfileGenerator.generate_profile` (profile_generator.py,
lines 24-122).  The 3MF generation sits in its own `try/except` whose
handler only logs ("Continue without 3MF"); the JSON config, JSON
profile and summary generators run afterwards, and their exceptions
propagate through the outer handler, which re-raises. -/

/-- The result dictionary of `generate_profile`: the `"3mf_profile"` key
is added only when 3MF generation returned a path. -/
structure ProfileResult where
  json_config : String
  json_profile : String
  summary : String
  base_name : String
  threeMfProfile : Option String
deriving DecidableEq

/-- Embeds `generate_profile`; `modelPathOk` is `model_path and
os.path.exists(model_path)`; `threeMf` is the outcome of
`_generate_3mf_with_settings` (its exception is swallowed); the other
three generators' outcomes propagate.  Returns the result dictionary or
the propagated exception. -/
def generateProfile (modelPathOk : Bool) (threeMf : Except String String)
    (jsonConfig jsonProfile summaryGen : Except String String)
    (baseName : String) : Except String ProfileResult := do
  let threeMfPath : Option String :=
    if modelPathOk then
      match threeMf with
      | .ok p => some p
      | .error _ => none
    else none
  let cfg ← jsonConfig
  let prof ← jsonProfile
  let summ ← summaryGen
  return { json_config := cfg, json_profile := prof, summary := summ
         , base_name := baseName, threeMfProfile := threeMfPath }

/-! ## Gemini agent fallback analysis

Embedding of `GeminiAgent._parse_analysis_response` and
`GeminiAgent._generate_fallback_analysis` (gemini_agent.py, lines
151-229).  The dictionaries crossing this boundary are free-form JSON,
embedded as `JsonVal`; `dict.get(k, default)` becomes `JsonVal.getD`. -/

/-- A JSON value (the shape of the feature and analysis dictionaries). -/
inductive JsonVal where
  | null
  | bool (b : Bool)
  | num (q : ℚ)
  | str (s : String)
  | arr (xs : List JsonVal)
  | obj (fields : List (String × JsonVal))

/-- Association-list lookup for `JsonVal.obj` fields. -/
def lookupField : List (String × JsonVal) → String → Option JsonVal
  | [], _ => none
  | (k, v) :: rest, key => if k = key then some v else lookupField rest key

/-- Python `d.get(key, default)` on a JSON object (`None`-like fallback on
non-objects, which the source never hits). -/
def JsonVal.getD (j : JsonVal) (key : String) (default : JsonVal) : JsonVal :=
  match j with
  | .obj fields =>
    match lookupField fields key with
    | some v => v
    | none => default
  | _ => default

/-- Python truthiness of a JSON value (`if overhangs.get(...)` style). -/
def JsonVal.truthy : JsonVal → Bool
  | .null => false
  | .bool b => b
  | .num q => q != 0
  | .str s => s != ""
  | .arr xs => !xs.isEmpty
  | .obj fields => !fields.isEmpty

/-- Replace-or-append assignment on an association list (Python
`d[key] = v`). -/
def setField : List (String × JsonVal) → String → JsonVal → List (String × JsonVal)
  | [], key, v => [(key, v)]
  | (k, w) :: rest, key, v =>
    if k = key then (k, v) :: rest else (k, w) :: setField rest key v

/-- Assignment `d[key] = v` on a JSON object (identity on non-objects). -/
def JsonVal.setKey (j : JsonVal) (key : String) (v : JsonVal) : JsonVal :=
  match j with
  | .obj fields => .obj (setField fields key v)
  | _ => j

/-- Embeds `GeminiAgent._generate_fallback_analysis(features, raw_response)`:
the deterministic rule-based analysis returned when JSON parsing of the
AI response fails. -/
def generateFallbackAnalysis (features : JsonVal) (rawResponse : String) : JsonVal :=
  let overhangs := features.getD "overhangs" (.obj [])
  let complexity := features.getD "complexity" (.obj [])
  let recTree := (overhangs.getD "recommend_tree_support" (.bool false)).truthy
  .obj
    [ ("analysis", .obj
        [ ("model_type", .str "unknown")
        , ("complexity_assessment", complexity.getD "detail_level" (.str "medium"))
        , ("print_challenges", .arr [.str "automatic_analysis_failed"])
        , ("key_considerations", .arr [.str "using_fallback_profile"])
        , ("raw_ai_response", .str (rawResponse.take 500)) ])
    , ("profile", .obj
        [ ("layer_height", .num 0.2)
        , ("first_layer_height", .num 0.2)
        , ("perimeters", .num 3)
        , ("top_solid_layers", .num 5)
        , ("bottom_solid_layers", .num 5)
        , ("infill_percentage", .num 20)
        , ("infill_pattern", .str "cubic")
        , ("support_material", overhangs.getD "needs_supports" (.bool false))
        , ("support_type", .str (if recTree then "tree_auto" else "normal"))
        , ("support_style", .str (if recTree then "tree" else "default"))
        , ("tree_support_branch_angle", .num 45)
        , ("tree_support_branch_distance", .num 2.5)
        , ("support_angle_threshold", .num 45)
        , ("brim_width", .num 0)
        , ("brim_type", .str "no_brim")
        , ("print_speed", .num 60)
        , ("first_layer_speed", .num 20)
        , ("perimeter_speed", .num 45)
        , ("infill_speed", .num 80)
        , ("travel_speed", .num 150)
        , ("retraction_length", .num 0.8)
        , ("retraction_speed", .num 35)
        , ("temperature", .num 210)
        , ("bed_temperature", .num 60)
        , ("cooling_fan_speed", .num 100)
        , ("first_layer_fan_speed", .num 0) ])
    , ("reasoning", .str "Fallback profile generated due to AI parsing error. Using safe default parameters.")
    , ("material_suggestion", .str "PLA")
    , ("estimated_quality", .str "standard")
    , ("estimated_print_time_factor", .num 1)
    , ("model_hash", features.getD "model_hash" (.str ""))
    , ("source", .str "fallback") ]

/-- Embeds `GeminiAgent._parse_analysis_response`; `decoded` is the result of
`json.loads` on the stripped response (`none` = `JSONDecodeError`).  On
success the parsed analysis is returned with `model_hash` and `source`
added; on decode failure the rule-based fallback is returned instead of
raising. -/
def parseAnalysisResponse (decoded : Option JsonVal) (features : JsonVal)
    (responseText : String) : JsonVal :=
  match decoded with
  | some analysis =>
    (analysis.setKey "model_hash" (features.getD "model_hash" (.str ""))).setKey
      "source" (.str "gemini_ai")
  | none => generateFallbackAnalysis features responseText

/-! ## Elegoo project settings document

Embedding of `ProfileGenerator._generate_elegoo_project_settings`
(profile_generator.py, lines 791-881).  A settings value is a scalar
string or a list of strings (§ SettingsTable).  Numeric profile values
enter the document only through `str(...)` / f-strings, so the profile is
embedded with each value already rendered to its string form; a missing
key renders the Python default (`str(profile.get('layer_height', 0.2))`
becomes `getD "0.2"`). -/

/-- A value in the Elegoo settings document: scalar string or string
list. -/
inductive SettingValue where
  | scalar (s : String)
  | list (xs : List String)
deriving DecidableEq

/-- The AI profile dictionary as consumed by
`_generate_elegoo_project_settings`: the keys it reads, each `none` when
absent.  String-rendered numeric values carry what `str(...)` would
produce. -/
structure AIProfile where
  support_style : Option String
  support_type : Option String
  support_material : Option Bool
  layer_height : Option String
  first_layer_height : Option String
  perimeters : Option String
  top_solid_layers : Option String
  bottom_solid_layers : Option String
  infill_percentage : Option String
  infill_pattern : Option String
  support_angle_threshold : Option String
  print_speed : Option String
  first_layer_speed : Option String
  perimeter_speed : Option String
  infill_speed : Option String
  travel_speed : Option String
  retraction_length : Option String
  retraction_speed : Option String
  temperature : Option String
  bed_temperature : Option String
  cooling_fan_speed : Option String
  first_layer_fan_speed : Option String
  tree_support_branch_angle : Option String
  tree_support_wall_count : Option String

/-- Python `'tree' in s.lower()`: `splitOn` yields more than one chunk
exactly when the separator occurs in the string. -/
def containsTree (s : String) : Bool :=
  (s.toLower.splitOn "tree").length > 1

/-- Source: `is_tree = profile.get('support_style') == 'tree' or 'tree' in
str(profile.get('support_type', '')).lower()`. -/
def isTreeSupport (p : AIProfile) : Bool :=
  p.support_style == some "tree" || containsTree (p.support_type.getD "")

/-- Association-list lookup for settings tables. -/
def lookupSetting : List (String × SettingValue) → String → Option SettingValue
  | [], _ => none
  | (k, v) :: rest, key => if k = key then some v else lookupSetting rest key

/-- The `ai_settings` literal of `_generate_elegoo_project_settings`
(source order). -/
def aiSettings (p : AIProfile) (material : String) : List (String × SettingValue) :=
  [ ("layer_height", .scalar (p.layer_height.getD "0.2"))
  , ("initial_layer_height", .scalar (p.first_layer_height.getD "0.2"))
  , ("wall_loops", .scalar (p.perimeters.getD "3"))
  , ("top_shell_layers", .scalar (p.top_solid_layers.getD "5"))
  , ("bottom_shell_layers", .scalar (p.bottom_solid_layers.getD "5"))
  , ("sparse_infill_density", .scalar (p.infill_percentage.getD "20" ++ "%"))
  , ("sparse_infill_pattern", .scalar (p.infill_pattern.getD "cubic"))
  , ("enable_support", .scalar (if p.support_material.getD false then "1" else "0"))
  , ("support_type", .scalar (if isTreeSupport p then "tree(auto)" else "normal(auto)"))
  , ("support_style", .scalar "default")
  , ("support_threshold_angle", .scalar (p.support_angle_threshold.getD "45"))
  , ("brim_type", .scalar "no_brim")
  , ("default_speed", .scalar (p.print_speed.getD "60"))
  , ("initial_layer_speed", .scalar (p.first_layer_speed.getD "20"))
  , ("outer_wall_speed", .scalar (p.perimeter_speed.getD "45"))
  , ("inner_wall_speed", .scalar (p.perimeter_speed.getD "45"))
  , ("sparse_infill_speed", .scalar (p.infill_speed.getD "80"))
  , ("travel_speed", .scalar (p.travel_speed.getD "150"))
  , ("retraction_length", .list [p.retraction_length.getD "0.8"])
  , ("retraction_speed", .list [p.retraction_speed.getD "35"])
  , ("nozzle_temperature", .list [p.temperature.getD "210"])
  , ("hot_plate_temp", .list [p.bed_temperature.getD "60"])
  , ("hot_plate_temp_initial_layer", .list [p.bed_temperature.getD "60"])
  , ("fan_max_speed", .list [p.cooling_fan_speed.getD "100"])
  , ("fan_min_speed", .list [p.first_layer_fan_speed.getD "0"])
  , ("filament_type", .list [material])
  , ("filament_settings_id", .list [material ++ " @ECC"])
  , ("different_settings_to_system", .list
      ["brim_type;enable_support;support_type;layer_height;wall_loops;sparse_infill_density;nozzle_temperature;hot_plate_temp"])
  , ("resolution", .scalar "0.01")
  , ("detect_thin_wall", .scalar "1") ]

/-- The tree-support extension merged into `ai_settings` when
`is_tree and profile.get('support_material', False)` (source order). -/
def treeSupportSettings (p : AIProfile) : List (String × SettingValue) :=
  [ ("tree_support_branch_angle", .scalar (p.tree_support_branch_angle.getD "45"))
  , ("tree_support_branch_angle_organic", .scalar (p.tree_support_branch_angle.getD "45"))
  , ("tree_support_branch_distance", .scalar "5")
  , ("tree_support_branch_distance_organic", .scalar "5")
  , ("tree_support_branch_diameter", .scalar "2")
  , ("tree_support_branch_diameter_organic", .scalar "2")
  , ("tree_support_wall_count", .scalar (p.tree_support_wall_count.getD "0"))
  , ("tree_support_adaptive_layer_height", .scalar "1")
  , ("tree_support_tip_diameter", .scalar "2")
  , ("tree_support_top_rate", .scalar "30%") ]

/-- Embeds `_generate_elegoo_project_settings` as a key-to-value table: the
defaults loaded from the template (`_load_elegoo_defaults`, arbitrary
here), updated (`settings.update(ai_settings)`) by the AI settings and,
when tree supports are selected and enabled, by the tree extension with
its fresh keys. -/
def elegooProjectSettings (defaults : List (String × SettingValue))
    (p : AIProfile) (material : String) : String → Option SettingValue :=
  let ai := aiSettings p material ++
    (if isTreeSupport p && p.support_material.getD false then treeSupportSettings p else [])
  fun key =>
    match lookupSetting ai key with
    | some v => some v
    | none => lookupSetting defaults key

/-! ## Theorems -/

/-- The solved scale is nonnegative whenever the plate is at least the
two margins wide. -/
lemma scaleFactor_nonneg (b : Bounds) (plate : ℚ) (hplate : 10 ≤ plate) :
    0 ≤ scaleFactor b plate := by
  unfold scaleFactor
  split
  · rename_i h
    have hsafe : 0 ≤ safeBuildSize plate := by unfold safeBuildSize; linarith
    exact div_nonneg hsafe (le_of_lt (lt_of_le_of_lt hsafe h))
  · norm_num

/-- Scaling any extent bounded by the max X/Y dimension fits inside the
safe build size. -/
lemma scaleFactor_mul_le (b : Bounds) (plate : ℚ) (e : ℚ)
    (he : e ≤ maxDimension b) (hplate : 10 ≤ plate) :
    scaleFactor b plate * e ≤ plate - 10 := by
  unfold scaleFactor
  split
  · rename_i h
    have hsafe : 0 ≤ safeBuildSize plate := by unfold safeBuildSize; linarith
    have hpos : 0 < maxDimension b := lt_of_le_of_lt hsafe h
    have h1 : safeBuildSize plate / maxDimension b * e ≤
        safeBuildSize plate / maxDimension b * maxDimension b :=
      mul_le_mul_of_nonneg_left he (div_nonneg hsafe hpos.le)
    have h2 : safeBuildSize plate / maxDimension b * maxDimension b = safeBuildSize plate :=
      div_mul_cancel₀ _ hpos.ne'
    unfold safeBuildSize at h1 h2 ⊢
    linarith
  · rename_i h
    push_neg at h
    unfold safeBuildSize at h
    linarith

/-- C1 (amended): for every well-formed mesh bounding box, plate at least
as wide as the two 5mm margins, and vertex of the mesh, the placed vertex
lies within `[0, plateSize]` in X and Y (indeed within
`[5, plateSize - 5]`); a bottom vertex (`z = minZ`) is placed at height
`scale * height / 2` — the solver's Z offset is half the scaled height,
not 0.  For the 10×10×10 cube on the 220mm plate the scale is 1 and the
translation centers the part at `(110, 110)`, with Z offset `5`. -/
theorem buildPlate_transform_containment :
    (∀ (b : Bounds) (plate : ℚ) (v : Vec3), b.wf → v.inBounds b → 10 ≤ plate →
      0 ≤ (placeVertex b plate v).x ∧ (placeVertex b plate v).x ≤ plate ∧
      0 ≤ (placeVertex b plate v).y ∧ (placeVertex b plate v).y ≤ plate ∧
      (v.z = b.minZ →
        (placeVertex b plate v).z = b.height / 2 * scaleFactor b plate)) ∧
    scaleFactor cubeBounds 220 = 1 ∧
    offsetX 220 = 110 ∧ offsetY 220 = 110 ∧ offsetZ cubeBounds 220 = 5 := by
  have hcube : scaleFactor cubeBounds 220 = 1 := by
    norm_num [scaleFactor, maxDimension, safeBuildSize, cubeBounds, Bounds.width, Bounds.depth]
  have hoz : offsetZ cubeBounds 220 = 5 := by
    unfold offsetZ
    rw [hcube]
    norm_num [Bounds.height, cubeBounds]
  refine ⟨?_, hcube, by norm_num [offsetX], by norm_num [offsetY], hoz⟩
  intro b plate v hwf hin hplate
  obtain ⟨hwx, hwy, hwz⟩ := hwf
  obtain ⟨h1, h2, h3, h4, h5, h6⟩ := hin
  have hs0 : 0 ≤ scaleFactor b plate := scaleFactor_nonneg b plate hplate
  have hsw : scaleFactor b plate * b.width ≤ plate - 10 :=
    scaleFactor_mul_le b plate b.width (le_max_left _ _) hplate
  have hsd : scaleFactor b plate * b.depth ≤ plate - 10 :=
    scaleFactor_mul_le b plate b.depth (le_max_right _ _) hplate
  have hxu : scaleFactor b plate * (v.x - (b.minX + b.maxX) / 2) ≤
      scaleFactor b plate * (b.width / 2) := by
    apply mul_le_mul_of_nonneg_left _ hs0
    unfold Bounds.width
    linarith
  have hxl : scaleFactor b plate * (-(b.width / 2)) ≤
      scaleFactor b plate * (v.x - (b.minX + b.maxX) / 2) := by
    apply mul_le_mul_of_nonneg_left _ hs0
    unfold Bounds.width
    linarith
  have hyu : scaleFactor b plate * (v.y - (b.minY + b.maxY) / 2) ≤
      scaleFactor b plate * (b.depth / 2) := by
    apply mul_le_mul_of_nonneg_left _ hs0
    unfold Bounds.depth
    linarith
  have hyl : scaleFactor b plate * (-(b.depth / 2)) ≤
      scaleFactor b plate * (v.y - (b.minY + b.maxY) / 2) := by
    apply mul_le_mul_of_nonneg_left _ hs0
    unfold Bounds.depth
    linarith
  refine ⟨?_, ?_, ?_, ?_, ?_⟩
  · simp only [placeVertex, applyTransform, normalizeVertex, offsetX]
    nlinarith [hxl, hsw]
  · simp only [placeVertex, applyTransform, normalizeVertex, offsetX]
    nlinarith [hxu, hsw]
  · simp only [placeVertex, applyTransform, normalizeVertex, offsetY]
    nlinarith [hyl, hsd]
  · simp only [placeVertex, applyTransform, normalizeVertex, offsetY]
    nlinarith [hyu, hsd]
  · intro hz
    simp only [placeVertex, applyTransform, normalizeVertex, offsetZ, hz]
    ring

/-- Witness for the amended C1 at the cube scenario. -/
theorem buildPlate_transform_containment_witness :
    0 ≤ (placeVertex cubeBounds 220 ⟨0, 0, 0⟩).x ∧
    (placeVertex cubeBounds 220 ⟨0, 0, 0⟩).x ≤ 220 ∧
    0 ≤ (placeVertex cubeBounds 220 ⟨0, 0, 0⟩).y ∧
    (placeVertex cubeBounds 220 ⟨0, 0, 0⟩).y ≤ 220 ∧
    (placeVertex cubeBounds 220 ⟨0, 0, 0⟩).z =
      cubeBounds.height / 2 * scaleFactor cubeBounds 220 := by
  have h := buildPlate_transform_containment.1 cubeBounds 220 ⟨0, 0, 0⟩
    (by norm_num [Bounds.wf, cubeBounds]) (by norm_num [Vec3.inBounds, cubeBounds])
    (by norm_num)
  exact ⟨h.1, h.2.1, h.2.2.1, h.2.2.2.1, h.2.2.2.2 (by norm_num [cubeBounds])⟩

/-- C1 counterexample: the claim's "minimum Z equals 0 / Z offset 0"
fails on the code — for the 10×10×10 cube on the 220mm plate the solved
Z offset is 5, and the transformed bottom vertex sits at height 5. -/
theorem buildPlate_minZ_counterexample :
    offsetZ cubeBounds 220 ≠ 0 ∧
    (placeVertex cubeBounds 220 ⟨0, 0, 0⟩).z = 5 := by
  have hcube : scaleFactor cubeBounds 220 = 1 := by
    norm_num [scaleFactor, maxDimension, safeBuildSize, cubeBounds, Bounds.width, Bounds.depth]
  constructor
  · unfold offsetZ
    rw [hcube]
    norm_num [Bounds.height, cubeBounds]
  · unfold placeVertex applyTransform normalizeVertex offsetZ
    rw [hcube]
    norm_num [Bounds.height, cubeBounds]

/-- C6: the solver scales only down — `maxDim = max(w, d)`,
`safeSize = plateSize - 2*5`, scale `safeSize / maxDim` exactly when
`maxDim > safeSize` and `1` otherwise, hence never above 1; the 300mm
X/Y mesh on the 220mm plate yields `safeSize = 210` and `s = 7/10`. -/
theorem scale_bound_and_scenario :
    (∀ (b : Bounds) (plate : ℚ), 0 ≤ b.width → 0 ≤ b.depth →
      scaleFactor b plate ≤ 1) ∧
    safeBuildSize 220 = 210 ∧ scaleFactor wideBounds 220 = 7 / 10 := by
  refine ⟨?_, by norm_num [safeBuildSize],
    by norm_num [scaleFactor, maxDimension, safeBuildSize, wideBounds,
      Bounds.width, Bounds.depth]⟩
  intro b plate hw _hd
  unfold scaleFactor
  split
  · rename_i h
    have hmax : 0 ≤ maxDimension b := le_trans hw (le_max_left _ _)
    rcases eq_or_lt_of_le hmax with heq | hpos
    · rw [← heq, div_zero]
      norm_num
    · rw [div_le_one hpos]
      exact le_of_lt h
  · exact le_refl 1

/-- Witness for C6 at the 300mm scenario. -/
theorem scale_bound_witness : scaleFactor wideBounds 220 ≤ 1 :=
  scale_bound_and_scenario.1 wideBounds 220
    (by norm_num [wideBounds, Bounds.width]) (by norm_num [wideBounds, Bounds.depth])

/-- A straight-down normal has dot product 1 with the downward axis, so
the implemented angle is 0°. -/
lemma angleDeg_down : angleDeg downNormal = 0 := by
  have hdot : downNormal.nx * 0 + downNormal.ny * 0 + downNormal.nz * (-1) = 1 := by
    norm_num [downNormal]
  have hclip : clip1 1 = 1 := by
    unfold clip1
    rw [max_eq_left (by norm_num), min_self]
  rw [angleDeg, hdot, hclip, Real.arccos_one, zero_mul]

/-- A straight-up normal has dot product -1 with the downward axis, so
the implemented angle is 180°. -/
lemma angleDeg_up : angleDeg upNormal = 180 := by
  have hdot : upNormal.nx * 0 + upNormal.ny * 0 + upNormal.nz * (-1) = -1 := by
    norm_num [upNormal]
  have hclip : clip1 (-1) = -1 := by
    unfold clip1
    rw [max_self, min_eq_left (by norm_num)]
  rw [angleDeg, hdot, hclip, Real.arccos_neg_one]
  field_simp

/-- C2 evaluated on the code: a single downward-facing triangle at
threshold 45° is not counted at any of the three thresholds — all three
percentages are 0 and no supports are requested (the implementation
measures the angle from the downward axis, which is 0° here). -/
theorem downward_triangle_not_counted :
    overhangPercentage [downNormal] 45 = 0 ∧
    overhangPercentage [downNormal] 60 = 0 ∧
    overhangPercentage [downNormal] 75 = 0 ∧
    ¬(detectOverhangs [downNormal] 45).needs_supports ∧
    ¬(detectOverhangs [downNormal] 45).recommend_tree_support := by
  have hcnt : ∀ t : ℝ, 0 ≤ t → countAbove [downNormal] t = 0 := by
    intro t ht
    simp only [countAbove, angleDeg_down]
    rw [if_neg (by linarith)]
  have hpct : ∀ t : ℝ, 0 ≤ t → overhangPercentage [downNormal] t = 0 := by
    intro t ht
    simp [overhangPercentage, hcnt t ht]
  refine ⟨hpct 45 (by norm_num), hpct 60 (by norm_num), hpct 75 (by norm_num), ?_, ?_⟩
  · simp only [detectOverhangs, hpct 45 (by norm_num)]
    norm_num
  · simp only [detectOverhangs, hpct 45 (by norm_num), hpct 60 (by norm_num),
      hpct 75 (by norm_num)]
    norm_num

/-- C3 evaluated on the code: a flat upward-facing square (all normals
straight up) at threshold 45° has every face counted — the overhang
percentage is 100 and `needs_supports` is true (the implemented angle
from the downward axis is 180° for an upward normal). -/
theorem upward_mesh_counted_as_overhang :
    overhangPercentage upSquare 45 = 100 ∧
    (detectOverhangs upSquare 45).needs_supports := by
  have hcnt : countAbove upSquare 45 = 2 := by
    simp only [upSquare, countAbove, angleDeg_up]
    rw [if_pos (by norm_num)]
  have hpct : overhangPercentage upSquare 45 = 100 := by
    unfold overhangPercentage
    rw [if_pos (by norm_num [upSquare]), hcnt,
      show upSquare.length = 2 from rfl]
    norm_num
  refine ⟨hpct, ?_⟩
  simp only [detectOverhangs, hpct]
  norm_num

/-- C4: for any face list and threshold, `needs_supports` holds exactly
when the overhang percentage exceeds 10 (equivalently, when more than a
tenth of the faces are counted), and `recommend_tree_support` holds
exactly on the disjunctive policy over the severe (60°), extreme (75°)
and threshold percentages. -/
theorem support_policy_booleans (ns : List Normal) (t : ℝ) (_h : ns ≠ []) :
    ((detectOverhangs ns t).needs_supports ↔ overhangPercentage ns t > 10) ∧
    ((detectOverhangs ns t).needs_supports ↔ 10 * countAbove ns t > ns.length) ∧
    ((detectOverhangs ns t).recommend_tree_support ↔
      (overhangPercentage ns 60 > 5 ∨
        (overhangPercentage ns t > 15 ∧ overhangPercentage ns 75 > 2) ∨
        overhangPercentage ns t > 20)) := by
  have hlen : 0 < ns.length := List.length_pos.mpr _h
  have hlenR : (0 : ℝ) < ns.length := by exact_mod_cast hlen
  refine ⟨Iff.rfl, ?_, Iff.rfl⟩
  simp only [detectOverhangs]
  unfold overhangPercentage
  rw [if_pos hlen]
  rw [div_mul_eq_mul_div, gt_iff_lt, lt_div_iff₀ hlenR]
  constructor
  · intro h
    have := h
    have hx : (10 : ℝ) * ns.length < countAbove ns t * 100 := by linarith
    have : (10 : ℝ) * countAbove ns t > ns.length := by linarith
    exact_mod_cast this
  · intro h
    have hx : (ns.length : ℝ) < 10 * countAbove ns t := by exact_mod_cast h
    linarith

/-- Witness for C4 on the single downward-facing triangle. -/
theorem support_policy_booleans_witness :
    ((detectOverhangs [downNormal] 45).needs_supports ↔
      overhangPercentage [downNormal] 45 > 10) ∧
    ((detectOverhangs [downNormal] 45).needs_supports ↔
      10 * countAbove [downNormal] 45 > ([downNormal] : List Normal).length) ∧
    ((detectOverhangs [downNormal] 45).recommend_tree_support ↔
      (overhangPercentage [downNormal] 60 > 5 ∨
        (overhangPercentage [downNormal] 45 > 15 ∧
          overhangPercentage [downNormal] 75 > 2) ∨
        overhangPercentage [downNormal] 45 > 20)) :=
  support_policy_booleans [downNormal] 45 (by simp)

/-- Counting faces above a threshold is antitone in the threshold. -/
lemma countAbove_antitone (ns : List Normal) {t1 t2 : ℝ} (h : t1 ≤ t2) :
    countAbove ns t2 ≤ countAbove ns t1 := by
  induction ns with
  | nil => simp [countAbove]
  | cons n rest ih =>
    simp only [countAbove]
    have hif : (if angleDeg n > t2 then 1 else 0) ≤ (if angleDeg n > t1 then 1 else 0) := by
      by_cases h2 : angleDeg n > t2
      · rw [if_pos h2, if_pos (lt_of_le_of_lt h h2)]
      · rw [if_neg h2]
        split <;> norm_num
    exact Nat.add_le_add hif ih

/-- C5: the overhang percentage is antitone in the threshold: for
`t1 < t2` the percentage at `t1` is at least the percentage at `t2`; in
particular extreme (75°) ≤ severe (60°) ≤ overhang (45°) on any mesh. -/
theorem overhang_percentage_monotone :
    (∀ (ns : List Normal) (t1 t2 : ℝ), t1 < t2 →
      overhangPercentage ns t2 ≤ overhangPercentage ns t1) ∧
    (∀ ns : List Normal,
      overhangPercentage ns 75 ≤ overhangPercentage ns 60 ∧
      overhangPercentage ns 60 ≤ overhangPercentage ns 45) := by
  have main : ∀ (ns : List Normal) (t1 t2 : ℝ), t1 ≤ t2 →
      overhangPercentage ns t2 ≤ overhangPercentage ns t1 := by
    intro ns t1 t2 h
    unfold overhangPercentage
    split
    · rename_i hlen
      have hlenR : (0 : ℝ) < ns.length := by exact_mod_cast hlen
      have hc : (countAbove ns t2 : ℝ) ≤ countAbove ns t1 := by
        exact_mod_cast countAbove_antitone ns h
      have hdiv : (countAbove ns t2 : ℝ) / ns.length ≤ (countAbove ns t1 : ℝ) / ns.length :=
        (div_le_div_iff_of_pos_right hlenR).mpr hc
      exact mul_le_mul_of_nonneg_right hdiv (by norm_num)
    · exact le_refl 0
  exact ⟨fun ns t1 t2 h => main ns t1 t2 h.le,
    fun ns => ⟨main ns 60 75 (by norm_num), main ns 45 60 (by norm_num)⟩⟩

/-- Witness for C5: thresholds 45 < 60 on the downward triangle. -/
theorem overhang_percentage_monotone_witness :
    overhangPercentage [downNormal] 60 ≤ overhangPercentage [downNormal] 45 :=
  overhang_percentage_monotone.1 [downNormal] 45 60 (by norm_num)

/-- C7 (amended): the temporary working directory is removed on every
exit path of `_generate_3mf_with_settings`, and a failure at model load,
XML generation or metadata writing raises before the target output path
has been touched — only a failure during the archive write itself leaves
a partially written file behind. -/
theorem temp_cleanup_and_no_partial_output :
    ∀ failAt : Option Stage,
      (generate3mfWithSettings failAt).state.tempDirExists = false ∧
      (failAt ≠ some .archiveWrite →
        leavesPartialArchive (generate3mfWithSettings failAt) = false) := by
  decide

/-- Witness for C7 at a metadata-writing failure. -/
theorem temp_cleanup_witness :
    (generate3mfWithSettings (some .metadataWrite)).state.tempDirExists = false ∧
    leavesPartialArchive (generate3mfWithSettings (some .metadataWrite)) = false :=
  ⟨(temp_cleanup_and_no_partial_output (some .metadataWrite)).1,
    (temp_cleanup_and_no_partial_output (some .metadataWrite)).2 (by decide)⟩

/-- C7 counterexample: a failure during the archive write stage
propagates while the partially written file at the target output path is
left behind (the source never removes `output_path` on error). -/
theorem archive_write_failure_leaves_partial :
    leavesPartialArchive (generate3mfWithSettings (some .archiveWrite)) = true ∧
    generate3mfWithSettings (some .archiveWrite) =
      .raised { tempDirExists := false, outputFileExists := true
              , outputComplete := false } := by
  decide

/-- C8: when 3MF generation raises, `generate_profile` still returns
normally with the JSON config, the JSON profile and the summary, and the
result has no `3mf_profile` entry. -/
theorem threeMf_failure_is_isolated (err cfg prof summ name : String) :
    generateProfile true (.error err) (.ok cfg) (.ok prof) (.ok summ) name =
      .ok { json_config := cfg, json_profile := prof, summary := summ
          , base_name := name, threeMfProfile := none } := rfl

/-- C9: on an unparseable AI response the agent returns the deterministic
rule-based fallback (no error): in its profile, `support_material` is the
features' `needs_supports` flag, and the support type and style are the
tree variants `"tree_auto"` / `"tree"` exactly when the features'
`recommend_tree_support` flag is true (`"normal"` / `"default"`
otherwise). -/
theorem fallback_on_unparseable_response (features : JsonVal) (raw : String)
    (b r : Bool)
    (hns : (features.getD "overhangs" (.obj [])).getD "needs_supports" (.bool false) =
      .bool b)
    (hrt : (features.getD "overhangs" (.obj [])).getD "recommend_tree_support"
      (.bool false) = .bool r) :
    parseAnalysisResponse none features raw = generateFallbackAnalysis features raw ∧
    ((generateFallbackAnalysis features raw).getD "profile" .null).getD
      "support_material" .null = .bool b ∧
    ((generateFallbackAnalysis features raw).getD "profile" .null).getD
      "support_type" .null = .str (if r then "tree_auto" else "normal") ∧
    ((generateFallbackAnalysis features raw).getD "profile" .null).getD
      "support_style" .null = .str (if r then "tree" else "default") := by
  refine ⟨rfl, ?_, ?_, ?_⟩ <;>
  · simp only [generateFallbackAnalysis, hns, hrt]
    simp [JsonVal.getD, lookupField, JsonVal.truthy]

/-- Witness for C9 on a concrete feature dictionary. -/
theorem fallback_on_unparseable_response_witness :
    parseAnalysisResponse none
        (.obj [("overhangs", .obj [("needs_supports", JsonVal.bool true),
          ("recommend_tree_support", JsonVal.bool true)])]) "not json" =
      generateFallbackAnalysis
        (.obj [("overhangs", .obj [("needs_supports", JsonVal.bool true),
          ("recommend_tree_support", JsonVal.bool true)])]) "not json" ∧
    ((generateFallbackAnalysis
        (.obj [("overhangs", .obj [("needs_supports", JsonVal.bool true),
          ("recommend_tree_support", JsonVal.bool true)])]) "not json").getD
      "profile" .null).getD "support_material" .null = .bool true ∧
    ((generateFallbackAnalysis
        (.obj [("overhangs", .obj [("needs_supports", JsonVal.bool true),
          ("recommend_tree_support", JsonVal.bool true)])]) "not json").getD
      "profile" .null).getD "support_type" .null = .str (if true then "tree_auto" else "normal") ∧
    ((generateFallbackAnalysis
        (.obj [("overhangs", .obj [("needs_supports", JsonVal.bool true),
          ("recommend_tree_support", JsonVal.bool true)])]) "not json").getD
      "profile" .null).getD "support_style" .null = .str (if true then "tree" else "default") :=
  fallback_on_unparseable_response
    (.obj [("overhangs", .obj [("needs_supports", JsonVal.bool true),
      ("recommend_tree_support", JsonVal.bool true)])]) "not json" true true rfl rfl

/-- C10: in the Elegoo project settings document, `support_style` is
always the scalar `"default"` — also when tree supports are selected —
and tree selection shows up only as `support_type = "tree(auto)"`
(`"normal(auto)"` otherwise), for any loaded defaults, profile and
material. -/
theorem elegoo_support_style_always_default
    (defaults : List (String × SettingValue)) (p : AIProfile) (material : String) :
    elegooProjectSettings defaults p material "support_style" =
      some (.scalar "default") ∧
    elegooProjectSettings defaults p material "support_type" =
      some (.scalar (if isTreeSupport p then "tree(auto)" else "normal(auto)")) := by
  constructor <;> simp [elegooProjectSettings, aiSettings, lookupSetting]

end Elegoo
